import Mathlib

/-!
Shallow embedding of the Adafruit_IS31FL3741 LED-driver source
(`src/Adafruit_IS31FL3741.cpp`) and proofs about its address translation,
pixel mapping, buffered flush and downsampling logic.

Conventions used throughout:
* machine integers are modelled as `Nat` (unsigned) or `Int` (signed
  `int16_t` coordinates), with `% 256` / `% 65536` inserted exactly where
  the C code narrows to `uint8_t` / `uint16_t`;
* `(x >> k) & (2^m - 1)` is written `x / 2^k % 2^m`;
* a bus transaction is recorded as data, not performed: a single
  register write becomes the pair of bytes that would go on the wire, a
  chunked write becomes the list of transmitted bytes;
* fallible operations return `Option` (`none` = the C function returns
  `false` without touching the bus).
-/

/-- Expansion of a packed RGB565 color to an (r, g, b) byte triple,
as in `drawPixel`:
`r = ((color >> 8) & 0xF8) | (color >> 13)` = `color/2048%32*8 + color/8192%8`,
`g = ((color >> 3) & 0xFC) | ((color >> 9) & 0x03)` = `color/32%64*4 + color/512%4`,
`b = ((color << 3) & 0xF8) | ((color >> 2) & 0x07)` = `color%32*8 + color/4%8`
(the masked summands occupy disjoint bit ranges, so `|` is `+`;
`color` is a `uint16_t`, so the `>> 13` term is below 8). -/
def expand565 (color : Nat) : Nat × Nat × Nat :=
  (color / 2048 % 32 * 8 + color / 8192 % 8,
   color / 32 % 64 * 4 + color / 512 % 4,
   color % 32 * 8 + color / 4 % 8)

/-- Rotation transform shared by every `drawPixel` in the source: the
`switch (getRotation())` block over the stored GFX rotation (always in
0..3, hence the `% 4` view). Case 1 swaps then mirrors x, case 2 mirrors
both, case 3 swaps then mirrors y, anything else leaves (x, y) alone. -/
def rotXY (W H rot : Nat) (x y : Int) : Int × Int :=
  match rot % 4 with
  | 1 => ((W : Int) - 1 - y, x)
  | 2 => ((W : Int) - 1 - x, (H : Int) - 1 - y)
  | 3 => (y, (H : Int) - 1 - x)
  | _ => (x, y)

/-- The Adafruit_GFX collaborator `width()` accessor: the native WIDTH
for rotations 0/2 and HEIGHT for rotations 1/3 (GFX swaps the reported
dimensions for the odd quarter-turns). -/
def gfxWidth (W H rot : Nat) : Nat :=
  if rot % 4 = 1 ∨ rot % 4 = 3 then H else W

/-- Model of `Adafruit_IS31FL3741::setLEDPWM(uint16_t lednum, uint8_t pwm)`:
returns `some (page, first command byte, second command byte)` for the bus
transaction it performs (`cmd[0]` is the in-page register offset, narrowed
to `uint8_t`), or `none` when `lednum >= 351` and the function returns
`false` without writing. -/
def setLEDPWM (lednum pwm : Nat) : Option (Nat × Nat × Nat) :=
  if lednum < 180 then some (0, lednum % 256, pwm)
  else if lednum < 351 then some (1, (lednum - 180) % 256, pwm)
  else none

/-- Model of `Adafruit_IS31FL3741::setLEDscaling(uint16_t lednum, uint8_t
scale)`: identical shape to `setLEDPWM` but on pages 2 and 3. -/
def setLEDscalingSingle (lednum scaleval : Nat) : Option (Nat × Nat × Nat) :=
  if lednum < 180 then some (2, lednum % 256, scaleval)
  else if lednum < 351 then some (3, (lednum - 180) % 256, scaleval)
  else none

/-- First chunk loop of `fill` / `setLEDscaling(uint8_t)`:
`while (ledaddr < 180) { buff[0] = ledaddr; write(buff, 31); ledaddr += 30; }`
with `buff` pre-filled with 31 copies of the value. Each transmitted
31-byte run is the start address (narrowed to `uint8_t`) followed by 30
data bytes. `fuel` bounds the iteration count; the loop advances by 30
each pass, so any fuel of at least 6 reproduces it exactly. -/
def fillLoopLow (v : Nat) : Nat → Nat → List (List Nat)
  | 0, _ => []
  | fuel + 1, ledaddr =>
    if ledaddr < 180 then
      (ledaddr % 256 :: List.replicate 30 v) :: fillLoopLow v fuel (ledaddr + 30)
    else []

/-- Second chunk loop of `fill` / `setLEDscaling(uint8_t)`:
`while (ledaddr < 351) { buff[0] = ledaddr - 180; ... ledaddr += 30; }`. -/
def fillLoopHigh (v : Nat) : Nat → Nat → List (List Nat)
  | 0, _ => []
  | fuel + 1, ledaddr =>
    if ledaddr < 351 then
      ((ledaddr - 180) % 256 :: List.replicate 30 v) :: fillLoopHigh v fuel (ledaddr + 30)
    else []

/-- Model of `Adafruit_IS31FL3741::fill(uint8_t fillpwm)`: the sequence of
chunked writes it issues, tagged with the page selected for each
(`selectPage(0)` before the first loop, `selectPage(1)` before the second;
`ledaddr` is 180 when the second loop starts). Models the all-writes-succeed
path; on a failed write the C function stops early and returns `false`. -/
def fill (fillpwm : Nat) : List (Nat × List Nat) :=
  (fillLoopLow fillpwm 180 0).map (fun w => (0, w))
    ++ (fillLoopHigh fillpwm 351 180).map (fun w => (1, w))

/-- Model of `Adafruit_IS31FL3741::setLEDscaling(uint8_t scale)`: same two
loops as `fill` but with `selectPage(2)` / `selectPage(3)`. -/
def setLEDscalingAll (scaleval : Nat) : List (Nat × List Nat) :=
  (fillLoopLow scaleval 180 0).map (fun w => (2, w))
    ++ (fillLoopHigh scaleval 351 180).map (fun w => (3, w))

/-- The QT board row permutation `rowmap[] = {8, 5, 4, 3, 2, 1, 0, 7, 6}`. -/
def rowmap : List Nat := [8, 5, 4, 3, 2, 1, 0, 7, 6]

/-- The `glassesmatrix_ledmap[18 * 5 * 3]` remap table, row-major by
`(x * 5 + y) * 3`; 65535 is the no-LED sentinel. -/
def glassesmatrix_ledmap : List Nat := [
  65535, 65535, 65535, 10, 9, 8, 13, 12, 11, 16, 15, 14, 4, 3, 2, 217, 216, 215, 220, 219,
  218, 223, 222, 221, 226, 225, 224, 214, 213, 212, 187, 186, 185, 190, 189, 188, 193, 192, 191, 196,
  195, 194, 184, 183, 182, 37, 36, 35, 40, 39, 38, 43, 42, 41, 46, 45, 44, 34, 33, 32,
  67, 66, 65, 70, 69, 68, 73, 72, 71, 76, 75, 74, 64, 63, 62, 97, 96, 95, 100, 99,
  98, 103, 102, 101, 106, 105, 104, 94, 93, 92, 127, 126, 125, 130, 129, 128, 133, 132, 131, 136,
  135, 134, 124, 123, 122, 157, 156, 155, 160, 159, 158, 163, 162, 161, 166, 165, 164, 244, 243, 242,
  247, 246, 245, 250, 249, 248, 253, 252, 251, 256, 255, 254, 65535, 65535, 65535, 345, 346, 347, 342, 343,
  344, 267, 268, 269, 263, 264, 265, 65535, 65535, 65535, 336, 337, 338, 333, 334, 335, 237, 238, 239, 233,
  234, 235, 348, 349, 262, 327, 328, 329, 324, 325, 326, 207, 208, 209, 203, 204, 205, 330, 331, 202,
  318, 319, 320, 315, 316, 317, 177, 178, 179, 173, 174, 175, 321, 322, 172, 309, 310, 311, 306, 307,
  308, 147, 148, 149, 143, 144, 145, 312, 313, 142, 300, 301, 302, 297, 298, 299, 117, 118, 119, 113,
  114, 115, 303, 304, 112, 291, 292, 293, 288, 289, 290, 87, 88, 89, 83, 84, 85, 294, 295, 82,
  282, 283, 284, 279, 280, 281, 57, 58, 59, 53, 54, 55, 285, 286, 52, 65535, 65535, 65535, 270, 271,
  272, 27, 28, 29, 23, 24, 25, 276, 277, 22]

/-- The `left_ring_map[24 * 3]` remap table. -/
def left_ring_map : List Nat := [
  341, 211, 210, 332, 181, 180, 323, 151, 150, 127, 126, 125, 154, 153, 152, 163, 162, 161, 166, 165,
  164, 244, 243, 242, 259, 258, 257, 169, 168, 167, 139, 138, 137, 109, 108, 107, 79, 78, 77, 49,
  48, 47, 199, 198, 197, 229, 228, 227, 19, 18, 17, 4, 3, 2, 16, 15, 14, 13, 12, 11,
  10, 9, 8, 217, 216, 215, 7, 6, 5, 350, 241, 240]

/-- The `right_ring_map[24 * 3]` remap table. -/
def right_ring_map : List Nat := [
  287, 31, 30, 278, 1, 0, 273, 274, 275, 282, 283, 284, 270, 271, 272, 27, 28, 29, 23, 24,
  25, 276, 277, 22, 20, 21, 26, 50, 51, 56, 80, 81, 86, 110, 111, 116, 140, 141, 146, 170,
  171, 176, 200, 201, 206, 230, 231, 236, 260, 261, 266, 348, 349, 262, 233, 234, 235, 237, 238, 239,
  339, 340, 232, 327, 328, 329, 305, 91, 90, 296, 61, 60]

/-- The red/blue gamma table `gammaRB[]` used by `scale()`. -/
def gammaRB : List Nat := [
  0, 0, 0, 0, 0, 0, 0, 0, 0, 0, 0, 0, 0, 0, 0, 0, 0, 1, 1, 1,
  1, 1, 1, 1, 1, 1, 1, 2, 2, 2, 2, 2, 2, 2, 3, 3, 3, 3, 3, 3,
  4, 4, 4, 4, 4, 5, 5, 5, 5, 6, 6, 6, 6, 7, 7, 7, 8, 8, 8, 8,
  9, 9, 9, 10, 10, 10, 11, 11, 12, 12, 12, 13, 13, 13, 14, 14, 15, 15, 16, 16,
  16, 17, 17, 18, 18, 19, 19, 20, 20, 21, 21, 22, 22, 23, 23, 24, 25, 25, 26, 26,
  27, 27, 28, 29, 29, 30, 31, 31, 32, 33, 33, 34, 35, 35, 36, 37, 37, 38, 39, 39,
  40, 41, 42, 42, 43, 44, 45, 45, 46, 47, 48, 49, 50, 50, 51, 52, 53, 54, 55, 55,
  56, 57, 58, 59, 60, 61, 62, 63, 64, 65, 66, 67, 68, 69, 70, 71, 72, 73, 74, 75,
  76, 77, 78, 79, 80, 81, 82, 83, 84, 85, 86, 88, 89, 90, 91, 92, 93, 94, 96, 97,
  98, 99, 100, 102, 103, 104, 105, 107, 108, 109, 110, 112, 113, 114, 116, 117, 118, 120, 121, 122,
  124, 125, 126, 128, 129, 130, 132, 133, 135, 136, 138, 139, 140, 142, 143, 145, 146, 148, 149, 151,
  152, 154, 155, 157, 159, 160, 162, 163, 165, 166, 168, 170, 171, 173, 175, 176, 178, 180, 181, 183,
  185, 186, 188, 190, 191, 193, 195, 197, 198, 200, 202, 204, 205, 207, 209, 211, 213, 215, 216, 218,
  220, 222, 224, 226, 228, 229, 231, 233, 235, 237, 239, 241, 243, 245, 247, 249, 251, 253, 255]

/-- The green gamma table `gammaG[]` used by `scale()`. -/
def gammaG : List Nat := [
  0, 0, 0, 0, 0, 0, 0, 0, 0, 0, 0, 0, 0, 0, 0, 0, 0, 0, 0, 0,
  0, 0, 0, 0, 0, 0, 0, 0, 0, 0, 0, 0, 0, 0, 1, 1, 1, 1, 1, 1,
  1, 1, 1, 1, 1, 1, 1, 1, 1, 1, 1, 1, 1, 1, 1, 2, 2, 2, 2, 2,
  2, 2, 2, 2, 2, 2, 2, 2, 2, 2, 3, 3, 3, 3, 3, 3, 3, 3, 3, 3,
  3, 4, 4, 4, 4, 4, 4, 4, 4, 4, 4, 5, 5, 5, 5, 5, 5, 5, 5, 6,
  6, 6, 6, 6, 6, 6, 6, 7, 7, 7, 7, 7, 7, 7, 8, 8, 8, 8, 8, 8,
  8, 9, 9, 9, 9, 9, 9, 10, 10, 10, 10, 10, 10, 11, 11, 11, 11, 11, 11, 12,
  12, 12, 12, 12, 13, 13, 13, 13, 13, 14, 14, 14, 14, 14, 15, 15, 15, 15, 15, 16,
  16, 16, 16, 16, 17, 17, 17, 17, 18, 18, 18, 18, 19, 19, 19, 19, 20, 20, 20, 20,
  21, 21, 21, 21, 22, 22, 22, 22, 23, 23, 23, 23, 24, 24, 24, 24, 25, 25, 25, 26,
  26, 26, 26, 27, 27, 27, 28, 28, 28, 28, 29, 29, 29, 30, 30, 30, 31, 31, 31, 32,
  32, 32, 33, 33, 33, 34, 34, 34, 34, 35, 35, 36, 36, 36, 37, 37, 37, 38, 38, 38,
  39, 39, 39, 40, 40, 40, 41, 41, 42, 42, 42, 43, 43, 43, 44, 44, 45, 45, 45, 46,
  46, 46, 47, 47, 48, 48, 48, 49, 49, 50, 50, 50, 51, 51, 52, 52, 53, 53, 53, 54,
  54, 55, 55, 55, 56, 56, 57, 57, 58, 58, 59, 59, 59, 60, 60, 61, 61, 62, 62, 63,
  63, 64, 64, 64, 65, 65, 66, 66, 67, 67, 68, 68, 69, 69, 70, 70, 71, 71, 72, 72,
  73, 73, 74, 74, 75, 75, 76, 76, 77, 77, 78, 78, 79, 79, 80, 80, 81, 81, 82, 83,
  83, 84, 84, 85, 85, 86, 86, 87, 87, 88, 89, 89, 90, 90, 91, 91, 92, 93, 93, 94,
  94, 95, 95, 96, 97, 97, 98, 98, 99, 99, 100, 101, 101, 102, 102, 103, 104, 104, 105, 106,
  106, 107, 107, 108, 109, 109, 110, 110, 111, 112, 112, 113, 114, 114, 115, 116, 116, 117, 118, 118,
  119, 119, 120, 121, 121, 122, 123, 123, 124, 125, 125, 126, 127, 127, 128, 129, 130, 130, 131, 132,
  132, 133, 134, 134, 135, 136, 136, 137, 138, 139, 139, 140, 141, 141, 142, 143, 144, 144, 145, 146,
  147, 147, 148, 149, 149, 150, 151, 152, 152, 153, 154, 155, 155, 156, 157, 158, 159, 159, 160, 161,
  162, 162, 163, 164, 165, 165, 166, 167, 168, 169, 169, 170, 171, 172, 173, 173, 174, 175, 176, 177,
  177, 178, 179, 180, 181, 182, 182, 183, 184, 185, 186, 187, 187, 188, 189, 190, 191, 192, 192, 193,
  194, 195, 196, 197, 198, 198, 199, 200, 201, 202, 203, 204, 205, 205, 206, 207, 208, 209, 210, 211,
  212, 213, 213, 214, 215, 216, 217, 218, 219, 220, 221, 222, 223, 223, 224, 225, 226, 227, 228, 229,
  230, 231, 232, 233, 234, 235, 236, 237, 237, 238, 239, 240, 241, 242, 243, 244, 245, 246, 247, 248,
  249, 250, 251, 252, 253, 254, 255]

/-- Narrowing of a signed value to `uint16_t` (what C does when an `int`
expression is stored in or passed as a `uint16_t`). -/
def toU16 (i : Int) : Nat := (i % 65536).toNat

/-- Point update of a byte buffer modelled as a function from index to
byte; `bufWrite buf i v` is `buf[i] = v`. -/
def bufWrite (buf : Nat → Nat) (i v : Nat) : Nat → Nat :=
  fun j => if j = i then v else buf j

/-- Model of the base-class `Adafruit_IS31FL3741::drawPixel`: rotation
first, then the bounds check on the rotated point against the native
WIDTH/HEIGHT, then three `setLEDPWM` calls at `(x + WIDTH * y) * 3`
in blue, green, red order. The result is the list of `(lednum, pwm)`
arguments passed to `setLEDPWM`, `[]` when the pixel is dropped. -/
def base_drawPixel (W H rot : Nat) (x y : Int) (color : Nat) : List (Nat × Nat) :=
  let p := rotXY W H rot x y
  if 0 ≤ p.1 ∧ p.1 < (W : Int) ∧ 0 ≤ p.2 ∧ p.2 < (H : Int) then
    let c := expand565 color
    let off := toU16 ((p.1 + (W : Int) * p.2) * 3)
    [(off, c.2.2), ((off + 1) % 65536, c.2.1), ((off + 2) % 65536, c.1)]
  else []

/-- Model of `Adafruit_IS31FL3741_EVB::drawPixel` (WIDTH 13, HEIGHT 9).
The source checks `(x >= 0) && (y >= 0) && (x < width()) && (y < width())`
on the incoming coordinates BEFORE the rotation switch (and compares both
coordinates against `width()`), then computes the two-region offset from
the rotated point and calls `setLEDPWM` in blue, green, red order. -/
def evb_drawPixel (rot : Nat) (x y : Int) (color : Nat) : List (Nat × Nat) :=
  if 0 ≤ x ∧ 0 ≤ y ∧ x < (gfxWidth 13 9 rot : Int) ∧ y < (gfxWidth 13 9 rot : Int) then
    let p := rotXY 13 9 rot x y
    let c := expand565 color
    let off := toU16 (if p.1 > 9 then (p.1 + 80 + p.2 * 3) * 3 else (p.1 + p.2 * 10) * 3)
    [(off, c.2.2), ((off + 1) % 65536, c.2.1), ((off + 2) % 65536, c.1)]
  else []

/-- The QT board column after rotation: `uint8_t col = x;` (narrowed from
`int16_t`). -/
def qtCol (rot : Nat) (x y : Int) : Nat :=
  ((rotXY 13 9 rot x y).1 % 256).toNat

/-- The QT board remapped row: `row = rowmap[y]` with the rotated `y`.
When `y` is outside 0..8 the C code reads past the 9-entry `rowmap`
(undefined behaviour); that case is modelled as 0 and is never reached
under the hypotheses of the theorems below. -/
def qtRow (rot : Nat) (x y : Int) : Nat :=
  let yy := (rotXY 13 9 rot x y).2
  if 0 ≤ yy ∧ yy < 9 then rowmap.getD yy.toNat 0 else 0

/-- The QT board base offset: the row-band and column-split arithmetic of
`Adafruit_IS31FL3741_QT::drawPixel`. -/
def qtOffset (rot : Nat) (x y : Int) : Nat :=
  let col := qtCol rot x y
  let row := qtRow rot x y
  if row ≤ 5 then
    if col < 10 then 0x1E * row + col * 3
    else 0xB4 + 0x5A + 9 * row + (col - 10) * 3
  else
    if col < 10 then 0xB4 + (row - 6) * 0x1E + col * 3
    else 0xB4 + 0x5A + 9 * row + (col - 10) * 3

/-- Model of `Adafruit_IS31FL3741_QT::drawPixel`. Bounds check on the
incoming coordinates (both against `width()`) before rotation, as in the
EVB variant; then the `setLEDPWM` calls go out in red, green, blue CALL
order, at offsets `r_off`, `g_off`, `b_off` from the base: `(2, 1, 0)`
when the column is 12 or odd, `(0, 2, 1)` otherwise. -/
def qt_drawPixel (rot : Nat) (x y : Int) (color : Nat) : List (Nat × Nat) :=
  if 0 ≤ x ∧ 0 ≤ y ∧ x < (gfxWidth 13 9 rot : Int) ∧ y < (gfxWidth 13 9 rot : Int) then
    let c := expand565 color
    let col := qtCol rot x y
    let off := qtOffset rot x y
    if col = 12 ∨ col % 2 = 1 then
      [(off + 2, c.1), (off + 1, c.2.1), (off + 0, c.2.2)]
    else
      [(off + 0, c.1), (off + 2, c.2.1), (off + 1, c.2.2)]
  else []

/-- Base index into `glassesmatrix_ledmap` for a rotated glasses-matrix
point: `x = (x * 5 + y) * 3`. -/
def glassesBase (p : Int × Int) : Int := (p.1 * 5 + p.2) * 3

/-- Read of `glassesmatrix_ledmap` at a possibly signed index. An index
outside 0..269 is a wild read in the C source (undefined behaviour); it is
modelled as 0 and never reached under the hypotheses of the theorems. -/
def ledmapRead (i : Int) : Nat :=
  if 0 ≤ i ∧ i < 270 then glassesmatrix_ledmap.getD i.toNat 0 else 0

/-- Model of `Adafruit_IS31FL3741_GlassesMatrix::drawPixel` (unbuffered,
WIDTH 18, HEIGHT 5): pre-rotation bounds check (both coordinates against
`width()`, as in the EVB/QT variants), rotation, then - unless the first
table entry is the 65535 sentinel - three `setLEDPWM` calls in blue, red,
green order. -/
def glassesMatrix_drawPixel (rot : Nat) (x y : Int) (color : Nat) : List (Nat × Nat) :=
  if 0 ≤ x ∧ 0 ≤ y ∧ x < (gfxWidth 18 5 rot : Int) ∧ y < (gfxWidth 18 5 rot : Int) then
    let p := rotXY 18 5 rot x y
    let c := expand565 color
    let base := glassesBase p
    let bidx := ledmapRead base
    if bidx ≠ 65535 then
      [(bidx, c.2.2), (ledmapRead (base + 1), c.1), (ledmapRead (base + 2), c.2.1)]
    else []
  else []

/-- Model of `Adafruit_IS31FL3741_GlassesMatrix_buffered::drawPixel`:
rotation FIRST, bounds check on the rotated point against WIDTH/HEIGHT,
sentinel test, then three stores into the frame buffer (the `getBuffer()`
view, indexed by logical LED number) in blue, red, green order. The
inline color expansions agree with `expand565` after the `uint8_t`
truncation of the stores. -/
def glassesMatrixBuffered_drawPixel (rot : Nat) (x y : Int) (color : Nat)
    (buf : Nat → Nat) : Nat → Nat :=
  let p := rotXY 18 5 rot x y
  if 0 ≤ p.1 ∧ p.1 < 18 ∧ 0 ≤ p.2 ∧ p.2 < 5 then
    let base := glassesBase p
    let bidx := ledmapRead base
    if bidx ≠ 65535 then
      let c := expand565 color
      bufWrite (bufWrite (bufWrite buf bidx c.2.2) (ledmapRead (base + 1)) c.1)
        (ledmapRead (base + 2)) c.2.1
    else buf
  else buf

/-- Modelled from the spec: the per-ring brightness member `_brightness`
and its setter live in the repository header `Adafruit_IS31FL3741.h`,
which is not under `src/`. The spec describes the user-level value as "a
per-ring brightness scalar (0-255)" whose value 255 leaves the channels
unscaled; the source applies the member as
`(uint8_t)(((uint16_t)channel * _brightness) >> 8)`, so for 255 to be
unscaled the header must store the scalar plus one (1..256) - the same
`1 + val ... allows >>8 instead of /255` idiom the source spells out in
`ColorHSV`. `brightness` below is the user-level scalar `b`; the stored
member is `b + 1`. -/
def ringScaledChannel (brightness chan : Nat) : Nat :=
  chan * (brightness + 1) / 256 % 256

/-- The three scaled channel bytes (r, g, b) computed at the top of the
ring `setPixelColor` / `fill` bodies from a packed RGB888 color. -/
def ringScaledRGB (brightness color : Nat) : Nat × Nat × Nat :=
  (ringScaledChannel brightness (color / 65536 % 256),
   ringScaledChannel brightness (color / 256 % 256),
   ringScaledChannel brightness (color % 256))

/-- The table stored in the `ring_map` member by the
`Adafruit_IS31FL3741_GlassesRing` constructor:
`ring_map = isRight ? right_ring_map : left_ring_map`. -/
def ringMapOf (isRight : Bool) : List Nat :=
  if isRight then right_ring_map else left_ring_map

/-- Model of `Adafruit_IS31FL3741_GlassesRing::setPixelColor`: the list of
`(lednum, pwm)` arguments passed to `setLEDPWM`. NOTE the source bodies of
`setPixelColor` and `fill` index `right_ring_map` directly (not the
`ring_map` member chosen by the constructor), for the left ring as well;
the write order is blue, red, green at table slots `n*3`, `n*3+1`,
`n*3+2`. -/
def glassesRing_setPixelColor (brightness : Nat) (n : Int) (color : Nat) :
    List (Nat × Nat) :=
  if 0 ≤ n ∧ n < 24 then
    let c := ringScaledRGB brightness color
    let n3 := n.toNat * 3
    [(right_ring_map.getD n3 0, c.2.2),
     (right_ring_map.getD (n3 + 1) 0, c.1),
     (right_ring_map.getD (n3 + 2) 0, c.2.1)]
  else []

/-- Model of `Adafruit_IS31FL3741_GlassesRing::fill`: the loop
`for (n = 0; n < 24 * 3; n += 3)` visits `n = 3 * k` for `k < 24` and
issues the same blue, red, green triple as `setPixelColor` at each. Also
reads `right_ring_map` directly. -/
def glassesRing_fill (brightness color : Nat) : List (Nat × Nat) :=
  ((List.range 24).map (fun k =>
    let c := ringScaledRGB brightness color
    [(right_ring_map.getD (3 * k) 0, c.2.2),
     (right_ring_map.getD (3 * k + 1) 0, c.1),
     (right_ring_map.getD (3 * k + 2) 0, c.2.1)])).flatten

/-- Model of `Adafruit_IS31FL3741_buffered_GlassesRing::setPixelColor`:
same guard, same `right_ring_map` indices and scaled values as the
unbuffered ring, but stored into the frame buffer instead of sent on the
bus. -/
def bufferedRing_setPixelColor (brightness : Nat) (n : Int) (color : Nat)
    (buf : Nat → Nat) : Nat → Nat :=
  if 0 ≤ n ∧ n < 24 then
    let c := ringScaledRGB brightness color
    let n3 := n.toNat * 3
    bufWrite (bufWrite (bufWrite buf (right_ring_map.getD n3 0) c.2.2)
      (right_ring_map.getD (n3 + 1) 0) c.1)
      (right_ring_map.getD (n3 + 2) 0) c.2.1
  else buf

/-- One page of `Adafruit_IS31FL3741_buffered::show()`:
`while (page_bytes) { btp = min(page_bytes, chunk); save = *ptr;
*ptr = addr; write(ptr, btp + 1); *ptr = save; page_bytes -= btp;
ptr += btp; addr += btp; }`.
Arguments: `c` the chunk size (`maxBufferSize() - 1` as `uint8_t`), `res`
the bus acknowledgment for each write (indexed by a running write
counter `wix`; the C code discards this return value), `fuel` a bound on
the iteration count, `buf` the frame buffer, `pos` the `ptr` index into
it, `addr` the in-page register address, `pb` the remaining page bytes.
Returns the final buffer, the final write counter and the list of
transmitted chunks paired with their bus results. Each loop pass removes
`min(pb, c) ≥ 1` bytes whenever `c ≥ 1`, so `fuel = pb` reproduces the C
loop exactly; with `c = 0` the C loop never terminates (the theorems
below all assume a max transfer size of at least 2). `addr` is a
`uint8_t` in C; it is kept un-narrowed here and reduced `% 256` at its
single use, which is equivalent because `(a % 256 + b) % 256 =
(a + b) % 256`. -/
def pageFlush (c : Nat) (res : Nat → Bool) :
    Nat → (Nat → Nat) → Nat → Nat → Nat → Nat →
    ((Nat → Nat) × Nat × List (List Nat × Bool))
  | 0, buf, wix, _, _, _ => (buf, wix, [])
  | fuel + 1, buf, wix, pos, addr, pb =>
    if pb = 0 then (buf, wix, [])
    else
      let btp := min pb c
      let save := buf pos
      let buf1 := bufWrite buf pos (addr % 256)
      let chunk := (List.range (btp + 1)).map fun j => buf1 (pos + j)
      let buf2 := bufWrite buf1 pos save
      let r := pageFlush c res fuel buf2 (wix + 1) (pos + btp) (addr + btp) (pb - btp)
      (r.1, r.2.1, (chunk, res wix) :: r.2.2)

/-- Model of `Adafruit_IS31FL3741_buffered::show()`: chunk size is
`maxBufferSize() - 1` narrowed to `uint8_t`; page 0 flushes 180 bytes
starting at `ptr = ledbuf` (index 0, the pad byte), page 1 flushes 171
bytes with `ptr` left at index 180; `addr` restarts at 0 for each page.
Returns the final frame buffer and the two per-page chunk lists (each
chunk paired with the bus result the C code ignores). -/
def showModel (M : Nat) (res : Nat → Bool) (buf : Nat → Nat) :
    ((Nat → Nat) × List (List Nat × Bool) × List (List Nat × Bool)) :=
  let c := (M - 1) % 256
  let r0 := pageFlush c res 180 buf 0 0 0 180
  let r1 := pageFlush c res 171 r0.1 r0.2.1 180 0 171
  (r1.1, r0.2.2, r1.2.2)

/-- One 3x3 accumulator of `scale()`: the sum over the block of
`canvas[(y*3+yy)*54 + x*3+xx] / div % m` (the `>> k & mask` component
extraction written with division and remainder); `div, m` are
`(2048, 32)` for red, `(32, 64)` for green, `(1, 32)` for blue. -/
def cellSum (canvas : Nat → Nat) (x y divisor m : Nat) : Nat :=
  ((List.range 3).map (fun yy =>
    ((List.range 3).map (fun xx =>
      canvas ((y * 3 + yy) * 54 + x * 3 + xx) / divisor % m)).sum)).sum

/-- One output cell of
`Adafruit_IS31FL3741_GlassesMatrix_buffered::scale()`: skip if the first
table entry is the sentinel, otherwise store the gamma-corrected
accumulators at the three table indices in blue, red, green order. The
gamma reads are modelled with a default of 0 for an out-of-range index;
the C source performs a plain array read there, which is out of bounds
exactly when the accumulator reaches the table length. -/
def scaleCell (canvas : Nat → Nat) (x y : Nat) (buf : Nat → Nat) : Nat → Nat :=
  let base := (x * 5 + y) * 3
  let bidx := glassesmatrix_ledmap.getD base 0
  if bidx ≠ 65535 then
    let ridx := glassesmatrix_ledmap.getD (base + 1) 0
    let gidx := glassesmatrix_ledmap.getD (base + 2) 0
    let bsum := cellSum canvas x y 1 32
    let rsum := cellSum canvas x y 2048 32
    let gsum := cellSum canvas x y 32 64
    bufWrite (bufWrite (bufWrite buf bidx (gammaRB.getD bsum 0))
      ridx (gammaRB.getD rsum 0)) gidx (gammaG.getD gsum 0)
  else buf

/-- Model of the full `scale()` double loop: `for (x = 0..17) for
(y = 0..4)`, updating the frame buffer cell by cell. -/
def scaleModel (canvas : Nat → Nat) (buf : Nat → Nat) : Nat → Nat :=
  (List.range 18).foldl
    (fun b x => (List.range 5).foldl (fun b2 y => scaleCell canvas x y b2) b) buf


/-- Statement of the amended ring-brightness property (claim C4): every
written channel value is `channel * (b + 1) / 256` (the stored
`_brightness` is `b + 1` and the source shifts the product right by 8),
the fill loop writes that same triple 24 times, the buffered ring write
stores the identical values, brightness 0 blanks every channel, and
brightness 255 writes every channel unscaled. -/
def RingScalingSpec (b : Nat) (n : Int) (color : Nat) : Prop :=
  (glassesRing_setPixelColor b n color).map Prod.snd =
    [color % 256 * (b + 1) / 256, color / 65536 % 256 * (b + 1) / 256,
     color / 256 % 256 * (b + 1) / 256] ∧
  (glassesRing_fill b color).map Prod.snd =
    (List.replicate 24 [color % 256 * (b + 1) / 256,
      color / 65536 % 256 * (b + 1) / 256,
      color / 256 % 256 * (b + 1) / 256]).flatten ∧
  (∀ buf : Nat → Nat, bufferedRing_setPixelColor b n color buf =
    (glassesRing_setPixelColor b n color).foldl
      (fun bf w => bufWrite bf w.1 w.2) buf) ∧
  (b = 0 → (glassesRing_setPixelColor b n color).map Prod.snd = [0, 0, 0]) ∧
  (b = 255 → (glassesRing_setPixelColor b n color).map Prod.snd =
    [color % 256, color / 65536 % 256, color / 256 % 256])

/-- Statement of the amended flush-chunking property (claim C2) for a max
transfer size `M`, bus results `res` and frame buffer `buf`: the buffer
is fully restored, page 0 goes out in `ceil(180 / (M - 1))` chunks and
page 1 in `ceil(171 / (M - 1))`, the first byte of chunk `k` is its
in-page start address `k * (M - 1)`, and the data bytes after each
address byte are exactly the page bytes of the buffer, in order. -/
def ShowChunkingSpec (M : Nat) (res : Nat → Bool) (buf : Nat → Nat) : Prop :=
  (showModel M res buf).1 = buf ∧
  (showModel M res buf).2.1.length = (180 + (M - 1) - 1) / (M - 1) ∧
  (showModel M res buf).2.2.length = (171 + (M - 1) - 1) / (M - 1) ∧
  (∀ k ch, (showModel M res buf).2.1.get? k = some ch →
    ch.1.head? = some (k * (M - 1))) ∧
  (∀ k ch, (showModel M res buf).2.2.get? k = some ch →
    ch.1.head? = some (k * (M - 1))) ∧
  ((showModel M res buf).2.1.map (fun ch => ch.1.tail)).flatten
    = (List.range 180).map (fun i => buf (1 + i)) ∧
  ((showModel M res buf).2.2.map (fun ch => ch.1.tail)).flatten
    = (List.range 171).map (fun i => buf (180 + 1 + i))

/-- Statement of the amended flush-failure property (claim C3): whatever
the bus acknowledgments `res` are, `show()` still restores the frame
buffer, still transmits exactly the same chunk data as in the all-success
run, and still attempts every one of the `ceil(180/(M-1)) +
ceil(171/(M-1))` chunked writes (it never aborts, and it returns no
status). -/
def ShowFailureSpec (M : Nat) (res : Nat → Bool) (buf : Nat → Nat) : Prop :=
  (showModel M res buf).1 = buf ∧
  (showModel M res buf).2.1.map Prod.fst
    = (showModel M (fun _ => true) buf).2.1.map Prod.fst ∧
  (showModel M res buf).2.2.map Prod.fst
    = (showModel M (fun _ => true) buf).2.2.map Prod.fst ∧
  (showModel M res buf).2.1.length + (showModel M res buf).2.2.length
    = (180 + (M - 1) - 1) / (M - 1) + (171 + (M - 1) - 1) / (M - 1)

set_option maxRecDepth 100000


/-- Helper: overwriting a buffer slot and then writing the old value back
leaves the buffer unchanged. -/
theorem bufWrite_restore (buf : Nat → Nat) (pos v : Nat) :
    bufWrite (bufWrite buf pos v) pos (buf pos) = buf := by
  funext j
  by_cases hj : j = pos <;> simp [bufWrite, hj]

/-- C1: `setLEDPWM` with `i < 180` selects page 0 and writes the PWM byte
at in-page offset `i`; with `180 <= i <= 350` it selects page 1 and
writes at offset `i - 180`; with `i >= 351` it performs no bus write and
returns false. -/
theorem setLEDPWM_paging (i pwm : Nat) :
    (i < 180 → setLEDPWM i pwm = some (0, i, pwm)) ∧
    (180 ≤ i → i ≤ 350 → setLEDPWM i pwm = some (1, i - 180, pwm)) ∧
    (351 ≤ i → setLEDPWM i pwm = none) := by
  refine ⟨fun h => ?_, fun h1 h2 => ?_, fun h => ?_⟩
  · simp only [setLEDPWM, if_pos h]
    rw [Nat.mod_eq_of_lt (by omega)]
  · simp only [setLEDPWM]
    rw [if_neg (by omega), if_pos (by omega), Nat.mod_eq_of_lt (by omega)]
  · simp only [setLEDPWM]
    rw [if_neg (by omega), if_neg (by omega)]

/-- Witness for C1 at the three representative inputs 5, 200 and 351. -/
theorem setLEDPWM_paging_witness :
    setLEDPWM 5 7 = some (0, 5, 7) ∧ setLEDPWM 200 7 = some (1, 20, 7) ∧
    setLEDPWM 351 7 = none :=
  ⟨(setLEDPWM_paging 5 7).1 (by decide),
   (setLEDPWM_paging 200 7).2.1 (by decide) (by decide),
   (setLEDPWM_paging 351 7).2.2 (by decide)⟩

/-- C7 counterexample: `fill` selects pages 0 and 1 (the PWM pages), not
the pages 2 and 3 that the claim asserts for it. -/
theorem fill_pages_counterexample :
    (fill 0).map Prod.fst = [0, 0, 0, 0, 0, 0, 1, 1, 1, 1, 1, 1] ∧
    (fill 0).map Prod.fst ≠ [2, 2, 2, 2, 2, 2, 3, 3, 3, 3, 3, 3] := by
  decide

set_option maxRecDepth 4000 in
/-- C7 (amended): the single-LED scaling write is exactly the single-LED
PWM write with the page number shifted by +2 (same 180 split, same
offsets); the all-LED scaling write is exactly `fill` with its pages
shifted by +2; and `fill` itself runs on the PWM pages 0 and 1, writing
six 31-byte chunks per page whose start addresses are `30 * k` on page 0
and `30 * k` (i.e. `ledaddr - 180`) on page 1. -/
theorem scaling_fill_split (i v : Nat) :
    setLEDscalingSingle i v = (setLEDPWM i v).map (fun t => (t.1 + 2, t.2)) ∧
    setLEDscalingAll v = (fill v).map (fun pw => (pw.1 + 2, pw.2)) ∧
    fill v = (List.range 6).map (fun k => (0, 30 * k :: List.replicate 30 v))
      ++ (List.range 6).map (fun k => (1, 30 * k :: List.replicate 30 v)) := by
  refine ⟨?_, ?_, ?_⟩
  · by_cases h1 : i < 180
    · simp [setLEDscalingSingle, setLEDPWM, h1]
    · by_cases h2 : i < 351 <;> simp [setLEDscalingSingle, setLEDPWM, h1, h2]
  · simp only [setLEDscalingAll, fill, List.map_append, List.map_map]
    rfl
  · rfl

/-- C5: the left-ring instance stores `left_ring_map` in its `ring_map`
member, but `setPixelColor` writes through `right_ring_map` anyway: at
ring pixel 0 the device indices actually written are 287, 31, 30 (the
right-ring triple), not the left-ring triple 341, 211, 210. -/
theorem leftRing_writes_right_table :
    ringMapOf false = left_ring_map ∧
    left_ring_map ≠ right_ring_map ∧
    (glassesRing_setPixelColor 255 0 0xFFFFFF).map Prod.fst = [287, 31, 30] ∧
    [left_ring_map.getD 0 0, left_ring_map.getD 1 0, left_ring_map.getD 2 0]
      = [341, 211, 210] ∧
    (glassesRing_setPixelColor 255 0 0xFFFFFF).map Prod.fst
      ≠ [341, 211, 210] := by
  refine ⟨rfl, by decide, by decide, by decide, by decide⟩

/-- C10: with an all-white canvas (every RGB565 pixel 0xFFFF) the red and
blue accumulators of the non-sentinel output cell (0,1) reach 279 and the
green accumulator reaches 567 - the exact lengths of the gamma tables -
so the gamma lookups index one entry past each table: the claimed bounds
fail. -/
theorem scale_gamma_overflow :
    cellSum (fun _ => 0xFFFF) 0 1 2048 32 = 279 ∧
    cellSum (fun _ => 0xFFFF) 0 1 1 32 = 279 ∧
    cellSum (fun _ => 0xFFFF) 0 1 32 64 = 567 ∧
    gammaRB.length = 279 ∧ gammaG.length = 567 ∧
    glassesmatrix_ledmap.getD ((0 * 5 + 1) * 3) 0 ≠ 65535 ∧
    ¬ (279 < gammaRB.length) ∧ ¬ (567 < gammaG.length) := by
  decide

/-- C8: a glasses-matrix position whose remap-table entry is the 65535
sentinel never causes a device write (unbuffered drawPixel), never causes
a frame-buffer write (buffered drawPixel), and is skipped entirely by the
downscale; the logical positions (0,0) and (8,4) are such positions. -/
theorem glasses_sentinel_skip :
    (∀ (rot : Nat) (x y : Int) (color : Nat),
      ledmapRead (glassesBase (rotXY 18 5 rot x y)) = 65535 →
        glassesMatrix_drawPixel rot x y color = []) ∧
    (∀ (rot : Nat) (x y : Int) (color : Nat) (buf : Nat → Nat),
      ledmapRead (glassesBase (rotXY 18 5 rot x y)) = 65535 →
        glassesMatrixBuffered_drawPixel rot x y color buf = buf) ∧
    (∀ (canvas : Nat → Nat) (x y : Nat) (buf : Nat → Nat),
      glassesmatrix_ledmap.getD ((x * 5 + y) * 3) 0 = 65535 →
        scaleCell canvas x y buf = buf) ∧
    glassesmatrix_ledmap.getD ((0 * 5 + 0) * 3) 0 = 65535 ∧
    glassesmatrix_ledmap.getD ((8 * 5 + 4) * 3) 0 = 65535 := by
  refine ⟨fun rot x y color h => ?_, fun rot x y color buf h => ?_,
    fun canvas x y buf h => ?_, by decide, by decide⟩
  · simp only [glassesMatrix_drawPixel, h]
    split <;> simp
  · simp only [glassesMatrixBuffered_drawPixel, h]
    split <;> simp
  · simp only [scaleCell, h]
    simp

/-- Witness for C8 at the two published sentinel positions (0,0) and
(8,4), with rotation 0. -/
theorem glasses_sentinel_skip_witness :
    glassesMatrix_drawPixel 0 0 0 0xFFFF = [] ∧
    glassesMatrixBuffered_drawPixel 0 8 4 0xFFFF (fun _ => 3) = (fun _ => 3) ∧
    scaleCell (fun _ => 0xFFFF) 8 4 (fun _ => 3) = (fun _ => 3) :=
  ⟨glasses_sentinel_skip.1 0 0 0 0xFFFF (by decide),
   glasses_sentinel_skip.2.1 0 8 4 0xFFFF (fun _ => 3) (by decide),
   glasses_sentinel_skip.2.2.1 (fun _ => 0xFFFF) 8 4 (fun _ => 3) (by decide)⟩

/-- C9 counterexample: on the EVB with rotation 0 the point (0,10) is
unchanged by rotation and its y-coordinate 10 is outside the device
height 9, so under the claim it must be silently dropped; the code
instead performs three `setLEDPWM` calls, the first of which is a real
in-range bus write (page 1, offset 120). -/
theorem evb_bounds_counterexample :
    rotXY 13 9 0 0 10 = (0, 10) ∧ ¬ ((10 : Int) < 9) ∧
    evb_drawPixel 0 0 10 0xFFFF = [(300, 255), (301, 255), (302, 255)] ∧
    setLEDPWM 300 255 = some (1, 120, 255) := by
  refine ⟨rfl, by decide, by decide, by decide⟩

/-- C9 (amended): only the base-class drawPixel applies its bounds check
to the post-rotation coordinates against the native WIDTH and HEIGHT
(dropping the pixel exactly when the rotated point is out of range); the
EVB and QT variants instead check the PRE-rotation coordinates, comparing
both against the rotated `width()`, and proceed to the channel writes
exactly when that pre-rotation check passes. -/
theorem drawPixel_bounds :
    (∀ (W H rot : Nat) (x y : Int) (color : Nat),
      base_drawPixel W H rot x y color ≠ [] ↔
        (0 ≤ (rotXY W H rot x y).1 ∧ (rotXY W H rot x y).1 < (W : Int) ∧
         0 ≤ (rotXY W H rot x y).2 ∧ (rotXY W H rot x y).2 < (H : Int))) ∧
    (∀ (rot : Nat) (x y : Int) (color : Nat),
      evb_drawPixel rot x y color ≠ [] ↔
        (0 ≤ x ∧ 0 ≤ y ∧ x < (gfxWidth 13 9 rot : Int) ∧
         y < (gfxWidth 13 9 rot : Int))) ∧
    (∀ (rot : Nat) (x y : Int) (color : Nat),
      qt_drawPixel rot x y color ≠ [] ↔
        (0 ≤ x ∧ 0 ≤ y ∧ x < (gfxWidth 13 9 rot : Int) ∧
         y < (gfxWidth 13 9 rot : Int))) := by
  refine ⟨fun W H rot x y color => ?_, fun rot x y color => ?_,
    fun rot x y color => ?_⟩
  · simp only [base_drawPixel]
    split <;> simp_all
  · simp only [evb_drawPixel]
    split <;> simp_all
  · simp only [qt_drawPixel]
    split
    · split <;> simp_all
    · simp_all

/-- C6 counterexample: at rotation 0 the pixel (0,6) lands in column 0
(even, not the last column) and row band `rowmap[6] = 0`, so its base
offset is 0; for pure green 0x07E0 (expands to r=0, g=255, b=0) the code
writes green at offset 2 and blue at offset 1 - R,B,G order - not the
claimed R,G,B order, which would put 255 at offset 1. -/
theorem qt_evenColumn_counterexample :
    qtCol 0 0 6 = 0 ∧ ¬ (qtCol 0 0 6 = 12 ∨ qtCol 0 0 6 % 2 = 1) ∧
    expand565 0x07E0 = (0, 255, 0) ∧
    qt_drawPixel 0 0 6 0x07E0 = [(0, 0), (2, 255), (1, 0)] ∧
    qt_drawPixel 0 0 6 0x07E0 ≠ [(0, 0), (1, 255), (2, 0)] := by
  decide

/-- C6 (amended): for an in-bounds QT pixel, when the post-rotation
column is odd or is the last column (12) the channel bytes land in B,G,R
order at offsets 0,1,2 from the base; otherwise (even, non-last columns)
they land in R,B,G order at offsets 0,1,2. -/
theorem qt_channel_order (rot : Nat) (x y : Int) (color : Nat)
    (hg : 0 ≤ x ∧ 0 ≤ y ∧ x < (gfxWidth 13 9 rot : Int) ∧
      y < (gfxWidth 13 9 rot : Int)) :
    (qtCol rot x y = 12 ∨ qtCol rot x y % 2 = 1 →
      qt_drawPixel rot x y color =
        [(qtOffset rot x y + 2, (expand565 color).1),
         (qtOffset rot x y + 1, (expand565 color).2.1),
         (qtOffset rot x y + 0, (expand565 color).2.2)]) ∧
    (¬ (qtCol rot x y = 12 ∨ qtCol rot x y % 2 = 1) →
      qt_drawPixel rot x y color =
        [(qtOffset rot x y + 0, (expand565 color).1),
         (qtOffset rot x y + 2, (expand565 color).2.1),
         (qtOffset rot x y + 1, (expand565 color).2.2)]) := by
  refine ⟨fun h => ?_, fun h => ?_⟩
  · simp only [qt_drawPixel, if_pos hg, if_pos h]
  · simp only [qt_drawPixel, if_pos hg, if_neg h]

/-- Witness for C6 at rotation 0: pixel (1,0) is an odd column, pixel
(0,6) an even one; color 0x07E0 expands to (0, 255, 0). -/
theorem qt_channel_order_witness :
    qt_drawPixel 0 1 0 0x07E0 =
      [(qtOffset 0 1 0 + 2, (expand565 0x07E0).1),
       (qtOffset 0 1 0 + 1, (expand565 0x07E0).2.1),
       (qtOffset 0 1 0 + 0, (expand565 0x07E0).2.2)] ∧
    qt_drawPixel 0 0 6 0x07E0 =
      [(qtOffset 0 0 6 + 0, (expand565 0x07E0).1),
       (qtOffset 0 0 6 + 2, (expand565 0x07E0).2.1),
       (qtOffset 0 0 6 + 1, (expand565 0x07E0).2.2)] :=
  ⟨(qt_channel_order 0 1 0 0x07E0 (by decide)).1 (by decide),
   (qt_channel_order 0 0 6 0x07E0 (by decide)).2 (by decide)⟩

/-- C4 counterexample: with per-ring brightness 127 and mid-gray
0x808080 (every channel byte 128) the code writes
`128 * (127 + 1) >> 8 = 64` to each channel, whereas the claimed
truncating `channel * b / 255` formula gives `128 * 127 / 255 = 63`. -/
theorem ring_brightness_counterexample :
    (glassesRing_setPixelColor 127 0 0x808080).map Prod.snd = [64, 64, 64] ∧
    (128 : Nat) * 127 / 255 = 63 ∧ (64 : Nat) ≠ 63 := by
  decide

/-- C4 (amended): ring channel scaling is `channel * (b + 1) / 256` (the
stored brightness is `b + 1`, applied as a truncating shift by 8),
identically in `setPixelColor`, `fill` and the buffered ring write;
`b = 0` blanks every channel and `b = 255` writes every channel unscaled,
as claimed, but the general written value can exceed the claimed
truncating `channel * b / 255` by one. -/
theorem ring_brightness_scaling (b : Nat) (n : Int) (color : Nat)
    (hb : b ≤ 255) (h0 : 0 ≤ n) (h1 : n < 24) : RingScalingSpec b n color := by
  have hch : ∀ chan : Nat, chan < 256 →
      ringScaledChannel b chan = chan * (b + 1) / 256 := by
    intro chan hc
    unfold ringScaledChannel
    apply Nat.mod_eq_of_lt
    have h2 : chan * (b + 1) ≤ 255 * 256 := Nat.mul_le_mul (by omega) (by omega)
    have h3 : chan * (b + 1) / 256 ≤ 255 * 256 / 256 := Nat.div_le_div_right h2
    omega
  have e1 : ringScaledRGB b color =
      (color / 65536 % 256 * (b + 1) / 256, color / 256 % 256 * (b + 1) / 256,
       color % 256 * (b + 1) / 256) := by
    simp only [ringScaledRGB]
    rw [hch _ (Nat.mod_lt _ (by norm_num)), hch _ (Nat.mod_lt _ (by norm_num)),
      hch _ (Nat.mod_lt _ (by norm_num))]
  have hg : 0 ≤ n ∧ n < 24 := ⟨h0, h1⟩
  refine ⟨?_, ?_, ?_, ?_, ?_⟩
  · simp [RingScalingSpec, glassesRing_setPixelColor, if_pos hg, e1]
  · simp only [glassesRing_fill, e1]
    rfl
  · intro buf
    simp only [bufferedRing_setPixelColor, glassesRing_setPixelColor, if_pos hg, e1]
    rfl
  · intro hb0
    subst hb0
    have hz : ∀ chan : Nat, chan < 256 → ringScaledChannel 0 chan = 0 := by
      intro chan hc
      unfold ringScaledChannel
      omega
    have z1 := hz (color % 256) (Nat.mod_lt _ (by norm_num))
    have z2 := hz (color / 65536 % 256) (Nat.mod_lt _ (by norm_num))
    have z3 := hz (color / 256 % 256) (Nat.mod_lt _ (by norm_num))
    simp [glassesRing_setPixelColor, if_pos hg, ringScaledRGB, z1, z2, z3]
  · intro hb255
    subst hb255
    have hid : ∀ chan : Nat, chan < 256 → ringScaledChannel 255 chan = chan := by
      intro chan hc
      unfold ringScaledChannel
      omega
    have i1 := hid (color % 256) (Nat.mod_lt _ (by norm_num))
    have i2 := hid (color / 65536 % 256) (Nat.mod_lt _ (by norm_num))
    have i3 := hid (color / 256 % 256) (Nat.mod_lt _ (by norm_num))
    simp [glassesRing_setPixelColor, if_pos hg, ringScaledRGB, i1, i2, i3]

/-- Witness for C4 at brightness 128, ring pixel 3, color 0xAABBCC. -/
theorem ring_brightness_scaling_witness : RingScalingSpec 128 3 0xAABBCC :=
  ring_brightness_scaling 128 3 0xAABBCC (by decide) (by decide) (by decide)

/-- Helper: `pageFlush` leaves the frame buffer exactly as it found it
(each loop pass restores the saved byte it borrowed). -/
theorem pageFlush_buf (c : Nat) (res : Nat → Bool) :
    ∀ (fuel : Nat) (buf : Nat → Nat) (wix pos addr pb : Nat),
      (pageFlush c res fuel buf wix pos addr pb).1 = buf := by
  intro fuel
  induction fuel with
  | zero => intro buf wix pos addr pb; rfl
  | succ fuel ih =>
    intro buf wix pos addr pb
    by_cases h : pb = 0
    · simp [pageFlush, h]
    · simp only [pageFlush, if_neg h]
      rw [ih, bufWrite_restore]

/-- Helper: the chunk spine of `pageFlush` (the transmitted data and the
write counter) does not depend on the bus results, which the C code
discards. -/
theorem pageFlush_res_irrelevant (c : Nat) (res res2 : Nat → Bool) :
    ∀ (fuel : Nat) (buf : Nat → Nat) (wix pos addr pb : Nat),
      (pageFlush c res fuel buf wix pos addr pb).2.1
        = (pageFlush c res2 fuel buf wix pos addr pb).2.1 ∧
      (pageFlush c res fuel buf wix pos addr pb).2.2.map Prod.fst
        = (pageFlush c res2 fuel buf wix pos addr pb).2.2.map Prod.fst := by
  intro fuel
  induction fuel with
  | zero => intro buf wix pos addr pb; exact ⟨rfl, rfl⟩
  | succ fuel ih =>
    intro buf wix pos addr pb
    by_cases h : pb = 0
    · simp [pageFlush, h]
    · simp only [pageFlush, if_neg h, List.map_cons]
      exact ⟨(ih _ _ _ _ _).1, by rw [(ih _ _ _ _ _).2]⟩

/-- Helper: with a positive chunk size and enough fuel, `pageFlush` emits
exactly `ceil(pb / c)` chunks. -/
theorem pageFlush_len (c : Nat) (res : Nat → Bool) (hc : 1 ≤ c) :
    ∀ (fuel : Nat) (buf : Nat → Nat) (wix pos addr pb : Nat), pb ≤ fuel →
      (pageFlush c res fuel buf wix pos addr pb).2.2.length = (pb + c - 1) / c := by
  intro fuel
  induction fuel with
  | zero =>
    intro buf wix pos addr pb hpb
    have h0 : pb = 0 := by omega
    subst h0
    simp [pageFlush]
    symm
    apply Nat.div_eq_of_lt
    omega
  | succ fuel ih =>
    intro buf wix pos addr pb hpb
    by_cases h : pb = 0
    · subst h
      simp [pageFlush]
      symm
      apply Nat.div_eq_of_lt
      omega
    · simp only [pageFlush, if_neg h, List.length_cons]
      rw [ih _ _ _ _ _ (by omega)]
      rcases le_or_lt pb c with hle | hlt
      · rw [min_eq_left hle]
        have e0 : pb - pb = 0 := by omega
        rw [e0]
        have h1 : (0 + c - 1) / c = 0 := Nat.div_eq_of_lt (by omega)
        have h2 : (pb + c - 1) / c = 1 := by
          have e2 : pb + c - 1 = (pb - 1) + c := by omega
          rw [e2, Nat.add_div_right _ (by omega)]
          have : (pb - 1) / c = 0 := Nat.div_eq_of_lt (by omega)
          omega
        omega
      · rw [min_eq_right hlt.le]
        have e1 : pb - c + c - 1 = (pb - 1 - c) + c := by omega
        have e2 : pb + c - 1 = (pb - 1) + c := by omega
        rw [e1, e2, Nat.add_div_right _ (by omega), Nat.add_div_right _ (by omega)]
        have e4 : (pb - 1) / c = (pb - 1 - c) / c + 1 :=
          Nat.div_eq_sub_div (by omega) (by omega)
        omega

/-- Helper: flushing zero page bytes transmits nothing. -/
theorem pageFlush_zero (c : Nat) (res : Nat → Bool) (fuel : Nat)
    (buf : Nat → Nat) (wix pos addr : Nat) :
    (pageFlush c res fuel buf wix pos addr 0).2.2 = [] := by
  cases fuel <;> simp [pageFlush]

/-- Helper: with a positive chunk size and enough fuel, the first byte of
the k-th transmitted chunk is the register address `addr + k * c`
(narrowed to `uint8_t`) at which that chunk starts. -/
theorem pageFlush_head (c : Nat) (res : Nat → Bool) (hc : 1 ≤ c) :
    ∀ (fuel : Nat) (buf : Nat → Nat) (wix pos addr pb : Nat), pb ≤ fuel →
      ∀ k ch, (pageFlush c res fuel buf wix pos addr pb).2.2.get? k = some ch →
        ch.1.head? = some ((addr + k * c) % 256) := by
  intro fuel
  induction fuel with
  | zero =>
    intro buf wix pos addr pb hpb k ch hk
    have h0 : pb = 0 := by omega
    subst h0
    simp [pageFlush] at hk
  | succ fuel ih =>
    intro buf wix pos addr pb hpb k ch hk
    by_cases h : pb = 0
    · subst h
      simp [pageFlush] at hk
    · simp only [pageFlush, if_neg h] at hk
      match k with
      | 0 =>
        rw [List.get?_cons_zero, Option.some.injEq] at hk
        rw [← hk]
        rw [List.range_succ_eq_map, List.map_cons, List.head?_cons]
        simp [bufWrite]
      | k + 1 =>
        rw [List.get?_cons_succ] at hk
        rcases le_or_lt pb c with hle | hlt
        · rw [min_eq_left hle, Nat.sub_self, pageFlush_zero] at hk
          simp at hk
        · rw [min_eq_right hlt.le] at hk
          have hrec := ih _ _ _ _ _ (by omega) k ch hk
          rw [hrec]
          congr 2
          ring

/-- Helper: with a positive chunk size and enough fuel, the data bytes of
the transmitted chunks (everything after each leading address byte),
concatenated in order, are exactly the `pb` buffer bytes following the
borrowed slot at `pos`. -/
theorem pageFlush_data (c : Nat) (res : Nat → Bool) (hc : 1 ≤ c) :
    ∀ (fuel : Nat) (buf : Nat → Nat) (wix pos addr pb : Nat), pb ≤ fuel →
      ((pageFlush c res fuel buf wix pos addr pb).2.2.map
          (fun ch => ch.1.tail)).flatten
        = (List.range pb).map (fun i => buf (pos + 1 + i)) := by
  intro fuel
  induction fuel with
  | zero =>
    intro buf wix pos addr pb hpb
    have h0 : pb = 0 := by omega
    subst h0
    rfl
  | succ fuel ih =>
    intro buf wix pos addr pb hpb
    by_cases h : pb = 0
    · subst h
      simp [pageFlush]
    · simp only [pageFlush, if_neg h, List.map_cons, List.flatten_cons]
      rw [bufWrite_restore, ih _ _ _ _ _ (by omega)]
      rw [List.range_succ_eq_map, List.map_cons, List.tail_cons, List.map_map]
      conv_rhs => rw [show pb = min pb c + (pb - min pb c) from by omega]
      rw [List.range_add, List.map_append, List.map_map]
      congr 1
      · apply List.map_congr_left
        intro j hj
        simp only [Function.comp_apply, bufWrite]
        rw [if_neg (by omega)]
        congr 1
        omega
      · apply List.map_congr_left
        intro j hj
        simp only [Function.comp_apply]
        congr 1
        omega

/-- C2 counterexample: the chunk size is `maxBufferSize() - 1` narrowed
to `uint8_t`, so a max transfer size of 258 yields chunk size 1 and page
0 goes out in 180 chunks, not the `ceil(180 / 257) = 1` chunks the claim
demands for every `M >= 2`. -/
theorem show_chunking_counterexample :
    (showModel 258 (fun _ => true) (fun _ => 0)).2.1.length = 180 ∧
    (180 + (258 - 1) - 1) / (258 - 1) = 1 ∧ (180 : Nat) ≠ 1 := by
  refine ⟨rfl, by norm_num, by norm_num⟩

/-- C2 (amended): for a bus maximum transfer size `M` with
`2 <= M <= 256` (so that the `uint8_t` chunk size is `M - 1 >= 1`) and
any frame buffer and bus results, `show()` restores every buffer byte,
transmits page 0 in `ceil(180/(M-1))` chunks and page 1 in
`ceil(171/(M-1))` chunks, starts chunk `k` of either page with its
in-page start address `k * (M - 1)`, and the chunk payloads are exactly
the page bytes in order. -/
theorem show_chunking (M : Nat) (res : Nat → Bool) (buf : Nat → Nat)
    (h2 : 2 ≤ M) (h256 : M ≤ 256) : ShowChunkingSpec M res buf := by
  have hM : (M - 1) % 256 = M - 1 := Nat.mod_eq_of_lt (by omega)
  have hc : 1 ≤ M - 1 := by omega
  unfold ShowChunkingSpec
  simp only [showModel, hM, pageFlush_buf]
  refine ⟨trivial, ?_, ?_, ?_, ?_, ?_, ?_⟩
  · exact pageFlush_len _ _ hc _ _ _ _ _ _ (le_refl 180)
  · exact pageFlush_len _ _ hc _ _ _ _ _ _ (le_refl 171)
  · intro k ch hk
    have hh := pageFlush_head _ res hc _ _ _ _ _ _ (le_refl 180) k ch hk
    rcases List.get?_eq_some.mp hk with ⟨hklen, hget⟩
    rw [pageFlush_len _ _ hc _ _ _ _ _ _ (le_refl 180)] at hklen
    have hmul : (k + 1) * (M - 1) ≤ 180 + (M - 1) - 1 :=
      (Nat.le_div_iff_mul_le (by omega)).mp hklen
    have hexp : (k + 1) * (M - 1) = k * (M - 1) + (M - 1) := by ring
    simp only [Nat.zero_add] at hh
    rw [Nat.mod_eq_of_lt (by omega)] at hh
    exact hh
  · intro k ch hk
    have hh := pageFlush_head _ res hc _ _ _ _ _ _ (le_refl 171) k ch hk
    rcases List.get?_eq_some.mp hk with ⟨hklen, hget⟩
    rw [pageFlush_len _ _ hc _ _ _ _ _ _ (le_refl 171)] at hklen
    have hmul : (k + 1) * (M - 1) ≤ 171 + (M - 1) - 1 :=
      (Nat.le_div_iff_mul_le (by omega)).mp hklen
    have hexp : (k + 1) * (M - 1) = k * (M - 1) + (M - 1) := by ring
    simp only [Nat.zero_add] at hh
    rw [Nat.mod_eq_of_lt (by omega)] at hh
    exact hh
  · have hd := pageFlush_data _ res hc 180 buf 0 0 0 180 (le_refl 180)
    simpa using hd
  · exact pageFlush_data _ res hc 171 buf _ 180 0 171 (le_refl 171)

/-- Witness for C2 at max transfer size 31 with an all-success bus and
the buffer holding byte value `i % 256` at slot `i`. -/
theorem show_chunking_witness :
    ShowChunkingSpec 31 (fun _ => true) (fun i => i % 256) :=
  show_chunking 31 (fun _ => true) (fun i => i % 256) (by norm_num) (by norm_num)

/-- C3 counterexample: with max transfer size 31 and a bus on which the
very first chunked write fails, `show()` still transmits all 12 chunks
of both pages (the recorded result of chunk 0 is `false`), rather than
the single attempted chunk that an immediate abort would leave. -/
theorem show_abort_counterexample :
    (showModel 31 (fun k => k != 0) (fun _ => 0)).2.1.head?.map Prod.snd
      = some false ∧
    (showModel 31 (fun k => k != 0) (fun _ => 0)).2.1.length
      + (showModel 31 (fun k => k != 0) (fun _ => 0)).2.2.length = 12 ∧
    (12 : Nat) ≠ 1 := by
  refine ⟨rfl, rfl, by norm_num⟩

/-- C3 (amended): `show()` ignores the result of every chunked write: for
any pattern of bus failures it neither aborts nor reports anything - the
transmitted chunk data equals the all-success run, every one of the
`ceil(180/(M-1)) + ceil(171/(M-1))` writes is attempted - and the frame
buffer is left unchanged, so the flush can be retried in full. -/
theorem show_failure_tolerant (M : Nat) (res : Nat → Bool) (buf : Nat → Nat)
    (h2 : 2 ≤ M) (h256 : M ≤ 256) : ShowFailureSpec M res buf := by
  have hM : (M - 1) % 256 = M - 1 := Nat.mod_eq_of_lt (by omega)
  have hc : 1 ≤ M - 1 := by omega
  unfold ShowFailureSpec
  simp only [showModel, hM, pageFlush_buf]
  refine ⟨trivial, ?_, ?_, ?_⟩
  · exact (pageFlush_res_irrelevant _ res (fun _ => true) _ _ _ _ _ _).2
  · rw [(pageFlush_res_irrelevant _ res (fun _ => true) 180 buf 0 0 0 180).1]
    exact (pageFlush_res_irrelevant _ res (fun _ => true) _ _ _ _ _ _).2
  · rw [pageFlush_len _ _ hc _ _ _ _ _ _ (le_refl 180),
      pageFlush_len _ _ hc _ _ _ _ _ _ (le_refl 171)]

/-- Witness for C3 at max transfer size 31 with a bus that fails every
odd-numbered write. -/
theorem show_failure_tolerant_witness :
    ShowFailureSpec 31 (fun k => k % 2 == 0) (fun i => i % 256) :=
  show_failure_tolerant 31 (fun k => k % 2 == 0) (fun i => i % 256)
    (by norm_num) (by norm_num)
